import Mathlib

/-!
Shallow embedding of `src/frontend/glideinFrontend.py` (the glideinWMS
frontend main): the iteration engine `iterate_one`, the lifecycle loop
`iterate` with its singleton lock and teardown, and the entry point `main`.

The external collaborators (`glideinFrontendInterface`, `glideinFrontendLib`,
`logSupport`) are not part of this repository snapshot; they are modelled as
oracle functions that may raise, following the spec (sections 2, 4.4 and 6).
Log writes are modelled as trace events; the filesystem state relevant to the
singleton lock is modelled explicitly.
-/

namespace GlideinFrontend

/-- Glidein names (Python dict keys in the match-count maps). -/
abbrev GName := String

/-- Python dict lookup `m[k]` as an assoc-list lookup returning `Option`:
`none` models the `KeyError` case. -/
def dlookup (m : List (GName × Int)) (k : GName) : Option Int :=
  match m with
  | [] => none
  | (k1, v) :: rest => if k1 = k then some v else dlookup rest k

/-- The key list of a match-count map (Python `dict.keys()`). -/
def dkeys (m : List (GName × Int)) : List GName := m.map Prod.fst

/-- The `glidein_monitors` dict `{"Idle":idle_jobs,"Running":running_jobs}`. -/
structure Monitors where
  idle : Int
  running : Int
deriving DecidableEq

/-- One call to `glideinFrontendInterface.advertizeWork`, with the exact
argument list of the source call site. -/
structure PublishCall where
  factory_pool : String
  frontend_name : String
  request_name : GName
  glidein_name : GName
  min_idle : Int
  glidein_params : String
  monitors : Monitors
deriving DecidableEq

/-- Observable side effects of one run: log writes (activity / warning
streams), demand publishes, and the retract-all call. -/
inductive Event where
  | activity (msg : String)
  | warning (msg : String)
  | advertize (c : PublishCall)
  | deadvertizeAll (pool frontend : String)
deriving DecidableEq

/-- Python exceptions that flow through the frontend code. -/
inductive PyErr where
  | keyError (k : GName)
  | keyboardInterrupt
  | runtimeError (msg : String)
  | failure (msg : String)
deriving DecidableEq

instance {ε α : Type} [DecidableEq ε] [DecidableEq α] :
    DecidableEq (Except ε α) := fun x y =>
  match x, y with
  | .error a, .error b =>
    if h : a = b then .isTrue (by rw [h]) else .isFalse (by simp [h])
  | .ok a, .ok b =>
    if h : a = b then .isTrue (by rw [h]) else .isFalse (by simp [h])
  | .error _, .ok _ => .isFalse (by simp)
  | .ok _, .error _ => .isFalse (by simp)

/-- A printable rendering, standing in for `traceback.format_exception`. -/
def errMsg : PyErr → String
  | .keyError k => "KeyError: " ++ k
  | .keyboardInterrupt => "KeyboardInterrupt"
  | .runtimeError m => "RuntimeError: " ++ m
  | .failure m => m

/-- Modelled from the spec: the external collaborators used by one iteration
pass (`glideinFrontendInterface.findGlideins`, `advertizeWork`, and
`glideinFrontendLib.getIdleCondorQ`, `getRunningCondorQ`, `countMatch` are
not under `src/`). Queue snapshots are opaque handles (`Nat`); every call is
synchronous and may raise. -/
structure Ext where
  findGlideins : String → Except PyErr (List GName)
  getIdleCondorQ : List String → String → Except PyErr Nat
  getRunningCondorQ : List String → String → Except PyErr Nat
  countMatch : String → Nat → List GName → Except PyErr (List (GName × Int))
  advertizeWork : PublishCall → Except PyErr Unit

/-- Modelled from the spec: the external world across the whole lifecycle —
one `Ext` record per pass index (collaborator state may change between
passes), plus `glideinFrontendInterface.deadvertizeAllWork` for teardown. -/
structure World where
  passes : Nat → Ext
  deadvertizeAllWork : String → String → Except PyErr Unit

/-- The static arguments of `iterate_one` / `iterate`, named as in the
source. -/
structure Args where
  frontend_name : String
  factory_pool : String
  schedd_names : List String
  job_constraint : String
  match_str : String
  max_idle : Int
  reserve_idle : Int
  glidein_params : String

/-- The sizing arithmetic of `iterate_one` (source lines 47-53):
`if idle_jobs>0: glidein_min_idle=idle_jobs+reserve_idle;
if glidein_min_idle>max_idle: glidein_min_idle=max_idle; else: 0`. -/
def glidein_min_idle_of (idle_jobs reserve_idle max_idle : Int) : Int :=
  if idle_jobs > 0 then
    if idle_jobs + reserve_idle > max_idle then max_idle
    else idle_jobs + reserve_idle
  else 0

/-- The `for glidename in count_glideins_idle.keys()` loop of `iterate_one`
(source lines 41-60). `count_glideins_running[glidename]` is a raising
lookup; the `advertizeWork` call is wrapped in `try/except` that writes a
warning and continues. Returns the event trace and the loop outcome. -/
def advertiseLoop (a : Args) (adv : PublishCall → Except PyErr Unit)
    (count_glideins_running : List (GName × Int)) :
    List (GName × Int) → List Event × Except PyErr Unit
  | [] => ([], .ok ())
  | (glidename, idle_jobs) :: rest =>
    match dlookup count_glideins_running glidename with
    | none => ([], .error (.keyError glidename))
    | some running_jobs =>
      let request_name := glidename
      let glidein_min_idle := glidein_min_idle_of idle_jobs a.reserve_idle a.max_idle
      let call : PublishCall :=
        { factory_pool := a.factory_pool
          frontend_name := a.frontend_name
          request_name := request_name
          glidein_name := glidename
          min_idle := glidein_min_idle
          glidein_params := a.glidein_params
          monitors := { idle := idle_jobs, running := running_jobs } }
      let evs1 : List Event :=
        [Event.activity ("Advertize " ++ request_name ++ " " ++ toString glidein_min_idle)]
      let evs2 : List Event :=
        match adv call with
        | .ok _ => [Event.advertize call]
        | .error _ =>
          [Event.advertize call,
           Event.warning ("Advertize " ++ request_name ++ " " ++ toString glidein_min_idle ++ " failed")]
      let tail := advertiseLoop a adv count_glideins_running rest
      (evs1 ++ evs2 ++ tail.1, tail.2)

/-- Embedding of `iterate_one` (source lines 28-62): discover supply, snapshot the idle
and running queues, count matches for both, then run the advertise loop.
Any raise from a collaborator propagates out. -/
def iterate_one (e : Ext) (a : Args) : List Event × Except PyErr Unit :=
  match e.findGlideins a.factory_pool with
  | .error err => ([], .error err)
  | .ok glidein_dict =>
    match e.getIdleCondorQ a.schedd_names a.job_constraint with
    | .error err => ([], .error err)
    | .ok condorq_dict_idle =>
      match e.getRunningCondorQ a.schedd_names a.job_constraint with
      | .error err => ([], .error err)
      | .ok condorq_dict_running =>
        let ev0 := Event.activity "Match"
        match e.countMatch a.match_str condorq_dict_idle glidein_dict with
        | .error err => ([ev0], .error err)
        | .ok count_glideins_idle =>
          match e.countMatch a.match_str condorq_dict_running glidein_dict with
          | .error err => ([ev0], .error err)
          | .ok count_glideins_running =>
            let tail := advertiseLoop a e.advertizeWork count_glideins_running count_glideins_idle
            (ev0 :: tail.1, tail.2)

/-- How the `while 1` loop of `iterate` exits (source lines 101-118):
a `KeyboardInterrupt` passes through, a first-pass error re-raises;
`fuelOut` marks a run truncated by the fuel bound while still looping. -/
inductive LoopExit where
  | interrupted
  | fatal (e : PyErr)
  | fuelOut
deriving DecidableEq

/-- The `while 1` loop body of `iterate` (source lines 100-118): log the
iteration, run one pass; `KeyboardInterrupt` re-raises, any other error
re-raises on the first pass and is logged as a warning afterwards; then
log `Sleep` and loop. `n` is the pass index selecting the pass oracle. -/
def runLoop (passes : Nat → Ext) (a : Args) :
    Nat → Nat → Bool → List Event × LoopExit
  | 0, _, _ => ([], .fuelOut)
  | fuel + 1, n, is_first =>
    let evIter := Event.activity "Iteration"
    let p := iterate_one (passes n) a
    match p.2 with
    | .error PyErr.keyboardInterrupt => (evIter :: p.1, .interrupted)
    | .error e =>
      if is_first then (evIter :: p.1, .fatal e)
      else
        let wev := Event.warning ("Exception: " ++ errMsg e)
        let tail := runLoop passes a fuel (n + 1) false
        (evIter :: p.1 ++ [wev, Event.activity "Sleep"] ++ tail.1, tail.2)
    | .ok _ =>
      let tail := runLoop passes a fuel (n + 1) false
      (evIter :: p.1 ++ [Event.activity "Sleep"] ++ tail.1, tail.2)

/-- Filesystem state relevant to the singleton lock file
`<log_dir>/glideinWMS.lock`: whether it exists, its content, and whether
another live process holds the exclusive `flock` on it. -/
structure FS where
  lockFileExists : Bool
  lockContent : String
  lockedByOther : Bool
deriving DecidableEq

/-- Outcome of one run of `iterate`: graceful return, a raised error, or a
fuel-truncated run still inside the loop. -/
inductive IterateResult where
  | ok
  | error (e : PyErr)
  | fuelOut
deriving DecidableEq

/-- The `finally` teardown block of `iterate` (source lines 126-134): log,
call `deadvertizeAllWork`, and on failure write the two warning lines; the
failure is swallowed. -/
def teardownEvents (w : World) (a : Args) : List Event :=
  Event.activity "Deadvertize my ads" ::
    match w.deadvertizeAllWork a.factory_pool a.frontend_name with
    | .ok _ => [Event.deadvertizeAll a.factory_pool a.frontend_name]
    | .error er =>
      [Event.deadvertizeAll a.factory_pool a.frontend_name,
       Event.warning "Failed to deadvertize my ads",
       Event.warning ("Exception: " ++ errMsg er)]

/-- Embedding of `iterate` (source lines 65-136). Modelled from the spec for the missing
`logSupport` module: `DayLogFile` / `DirCleanup` construction opens nothing
and mutates no file (spec 4.1: on lock contention the failure occurs before
any logging side effect); log writes appear as trace events.

The lock protocol follows the source: create the lock file if absent, open
it read-write, try a non-blocking exclusive `flock`; on contention close and
raise `RuntimeError`; on success truncate and write the PID line, then run
the loop inside `try/finally` blocks that always deadvertize once and whose
teardown failure is caught and logged. A `fuelOut` run is still inside the
loop, so its teardown has not happened yet. -/
def iterate (w : World) (a : Args) (pid : Nat) (startup_time : String)
    (fuel : Nat) (fs : FS) : FS × List Event × IterateResult :=
  let fs1 : FS :=
    if fs.lockFileExists then fs
    else { fs with lockFileExists := true, lockContent := "" }
  if fs1.lockedByOther then
    (fs1, [], .error (.runtimeError "Another frontend already running"))
  else
    let fs2 : FS :=
      { fs1 with lockContent :=
          "PID: " ++ toString pid ++ "\nStarted: " ++ startup_time ++ "\n" }
    let ev0 := Event.activity "Starting up"
    let lp := runLoop w.passes a fuel 0 true
    match lp.2 with
    | .fuelOut => (fs2, ev0 :: lp.1, .fuelOut)
    | .interrupted =>
      (fs2,
       ev0 :: lp.1 ++ [Event.activity "Received signal...exit"] ++ teardownEvents w a,
       .ok)
    | .fatal e =>
      (fs2,
       ev0 :: lp.1 ++ [Event.warning ("Exception: " ++ errMsg e)] ++ teardownEvents w a,
       .error e)

/-- The glidein names carried by the `advertizeWork` calls of an event
trace, in order. -/
def publishedNames (evs : List Event) : List GName :=
  evs.filterMap fun ev =>
    match ev with
    | .advertize c => some c.glidein_name
    | _ => none

/-- How many iteration passes were started in a trace (each pass logs the
`Iteration` activity line first). -/
def iterationStarts : List Event → Nat
  | [] => 0
  | Event.activity msg :: rest =>
    (if msg = "Iteration" then 1 else 0) + iterationStarts rest
  | _ :: rest => iterationStarts rest

/-- How many times the trace records a `deadvertizeAllWork` call for the
given pool and frontend identity. -/
def deadvCalls (pool fe : String) : List Event → Nat
  | [] => 0
  | Event.deadvertizeAll p f :: rest =>
    (if p = pool ∧ f = fe then 1 else 0) + deadvCalls pool fe rest
  | _ :: rest => deadvCalls pool fe rest

/-- Modelled from the spec: the configuration keys `main` reads from the
`execfile`d config dict (spec section 6); configuration is treated as parsed
data. -/
structure Config where
  log_dir : String
  frontend_name : String
  factory_pool : String
  schedd_names : List String
  job_constraint : String
  match_string : String
  glidein_params : String

/-- Embedding of `main` (source lines 139-146): build the `iterate` arguments from the
config, hard-coding `max_idle = 100` and `reserve_idle = 5`; the
`advertize_rate` argument is accepted and never used. -/
def main (w : World) (sleep_time : Nat) (advertize_rate : Int)
    (config : Config) (pid : Nat) (startup_time : String)
    (fuel : Nat) (fs : FS) : FS × List Event × IterateResult :=
  let a : Args :=
    { frontend_name := config.frontend_name
      factory_pool := config.factory_pool
      schedd_names := config.schedd_names
      job_constraint := config.job_constraint
      match_str := config.match_string
      max_idle := 100
      reserve_idle := 5
      glidein_params := config.glidein_params }
  iterate w a pid startup_time fuel fs

/-! ### Concrete fixtures used by witnesses and counterexamples -/

/-- Arguments shared by the concrete runs: `reserve_idle = 5`,
`max_idle = 100` as in `main`. -/
def argsA : Args :=
  { frontend_name := "fe", factory_pool := "pool", schedd_names := ["s1"],
    job_constraint := "jc", match_str := "m", max_idle := 100,
    reserve_idle := 5, glidein_params := "gp" }

/-- Collaborators that succeed and match nothing. -/
def extOkEmpty : Ext :=
  { findGlideins := fun _ => .ok []
    getIdleCondorQ := fun _ _ => .ok 0
    getRunningCondorQ := fun _ _ => .ok 1
    countMatch := fun _ _ _ => .ok []
    advertizeWork := fun _ => .ok () }

/-- One glidein `g`: 3 idle matches (snapshot 0), 2 running matches
(snapshot 1); publishing succeeds. -/
def extC1 : Ext :=
  { findGlideins := fun _ => .ok ["g"]
    getIdleCondorQ := fun _ _ => .ok 0
    getRunningCondorQ := fun _ _ => .ok 1
    countMatch := fun _ cq _ => .ok [("g", if cq = 0 then 3 else 2)]
    advertizeWork := fun _ => .ok () }

/-- The publish call produced by `extC1` with `argsA`:
`min_idle = min(3 + 5, 100) = 8`. -/
def callC1 : PublishCall :=
  { factory_pool := "pool", frontend_name := "fe", request_name := "g",
    glidein_name := "g", min_idle := 8, glidein_params := "gp",
    monitors := { idle := 3, running := 2 } }

/-- Key `A` has one idle match but is absent from the running match map. -/
def extC2 : Ext :=
  { findGlideins := fun _ => .ok ["A"]
    getIdleCondorQ := fun _ _ => .ok 0
    getRunningCondorQ := fun _ _ => .ok 1
    countMatch := fun _ cq _ => .ok (if cq = 0 then [("A", 1)] else [])
    advertizeWork := fun _ => .ok () }

/-- Keys `A` and `B` have idle matches; only `A` appears in the running
match map. -/
def extC8 : Ext :=
  { findGlideins := fun _ => .ok ["A", "B"]
    getIdleCondorQ := fun _ _ => .ok 0
    getRunningCondorQ := fun _ _ => .ok 1
    countMatch := fun _ cq _ =>
      .ok (if cq = 0 then [("A", 1), ("B", 2)] else [("A", 0)])
    advertizeWork := fun _ => .ok () }

/-- An advertiser that rejects glidein `A` and accepts everything else. -/
def advC4 : PublishCall → Except PyErr Unit := fun c =>
  if c.request_name = "A" then .error (.failure "publish failed") else .ok ()

/-- Running match map for the isolation scenario. -/
def runC4 : List (GName × Int) := [("A", 0), ("B", 0)]

/-- Idle match map for the isolation scenario. -/
def idleC4 : List (GName × Int) := [("A", 1), ("B", 1)]

/-- The failing publish call of the isolation scenario. -/
def callC4 : PublishCall :=
  { factory_pool := "pool", frontend_name := "fe", request_name := "A",
    glidein_name := "A", min_idle := 6, glidein_params := "gp",
    monitors := { idle := 1, running := 0 } }

/-- A pass where publishing fails for `A` and the later idle key `B` is
absent from the running match map. -/
def extC4x : Ext :=
  { findGlideins := fun _ => .ok ["A", "B"]
    getIdleCondorQ := fun _ _ => .ok 0
    getRunningCondorQ := fun _ _ => .ok 1
    countMatch := fun _ cq _ =>
      .ok (if cq = 0 then [("A", 1), ("B", 1)] else [("A", 0)])
    advertizeWork := advC4 }

/-- A world whose passes match nothing and whose teardown succeeds. -/
def worldIdle : World :=
  { passes := fun _ => extOkEmpty, deadvertizeAllWork := fun _ _ => .ok () }

/-- Lock file written and exclusively held by a first process. -/
def fsLocked : FS :=
  { lockFileExists := true, lockContent := "PID: 11\nStarted: t0\n",
    lockedByOther := true }

/-- Lock file present but free. -/
def fsFree : FS :=
  { lockFileExists := true, lockContent := "PID: 11\nStarted: t0\n",
    lockedByOther := false }

/-- A pass whose supply discovery raises. -/
def extFailFind : Ext :=
  { findGlideins := fun _ => .error (.failure "boom")
    getIdleCondorQ := fun _ _ => .ok 0
    getRunningCondorQ := fun _ _ => .ok 1
    countMatch := fun _ _ _ => .ok []
    advertizeWork := fun _ => .ok () }

/-- Every pass fails: the first already raises. -/
def worldC5a : World :=
  { passes := fun _ => extFailFind, deadvertizeAllWork := fun _ _ => .ok () }

/-- Pass 0 succeeds, pass 1 raises, later passes succeed again. -/
def worldC5b : World :=
  { passes := fun n => if n = 1 then extFailFind else extOkEmpty
    deadvertizeAllWork := fun _ _ => .ok () }

/-- A pass interrupted by the shutdown signal. -/
def extKI : Ext :=
  { findGlideins := fun _ => .error PyErr.keyboardInterrupt
    getIdleCondorQ := fun _ _ => .ok 0
    getRunningCondorQ := fun _ _ => .ok 1
    countMatch := fun _ _ _ => .ok []
    advertizeWork := fun _ => .ok () }

/-- Graceful shutdown on the first pass, with failing teardown. -/
def worldC6g : World :=
  { passes := fun _ => extKI
    deadvertizeAllWork := fun _ _ => .error (.failure "deadfail") }

/-- Fatal first pass, with failing teardown. -/
def worldC6f : World :=
  { passes := fun _ => extFailFind
    deadvertizeAllWork := fun _ _ => .error (.failure "deadfail") }

/-- One glidein with 3 idle and 3 running matches on every pass. -/
def extC10 : Ext :=
  { findGlideins := fun _ => .ok ["g"]
    getIdleCondorQ := fun _ _ => .ok 0
    getRunningCondorQ := fun _ _ => .ok 1
    countMatch := fun _ _ _ => .ok [("g", 3)]
    advertizeWork := fun _ => .ok () }

/-- World for a full `main` run that publishes one demand. -/
def worldC10 : World :=
  { passes := fun _ => extC10, deadvertizeAllWork := fun _ _ => .ok () }

/-- A parsed configuration for the `main` runs. -/
def configW : Config :=
  { log_dir := "log", frontend_name := "fe", factory_pool := "pool",
    schedd_names := ["s1"], job_constraint := "jc", match_string := "m",
    glidein_params := "gp" }

/-- The publish call of the `main` run over `worldC10`:
`min_idle = min(3 + 5, 100) = 8`. -/
def callC10 : PublishCall :=
  { factory_pool := "pool", frontend_name := "fe", request_name := "g",
    glidein_name := "g", min_idle := 8, glidein_params := "gp",
    monitors := { idle := 3, running := 3 } }

/-! ## Helper lemmas -/

theorem glidein_min_idle_of_eq_min (i r m : Int) (h : 0 < i) :
    glidein_min_idle_of i r m = min (i + r) m := by
  rw [glidein_min_idle_of, if_pos h]
  rcases le_or_lt (i + r) m with h1 | h1
  · rw [if_neg (by omega), min_eq_left h1]
  · rw [if_pos h1, min_eq_right h1.le]

theorem glidein_min_idle_of_of_zero (r m : Int) :
    glidein_min_idle_of 0 r m = 0 := by
  rw [glidein_min_idle_of, if_neg (by omega)]

theorem glidein_min_idle_of_bounds (i r m : Int) (hr : 0 ≤ r) (hm : 0 ≤ m) :
    0 ≤ glidein_min_idle_of i r m ∧ glidein_min_idle_of i r m ≤ m := by
  rw [glidein_min_idle_of]
  split
  · split <;> omega
  · omega

/-- Full characterization of the publish calls emitted by the advertise
loop: each comes from an entry of the idle map, its running monitor is the
(successful) raising lookup in the running map, and its `min_idle` is the
sizing arithmetic applied to its idle monitor. -/
theorem advertiseLoop_advertize_spec (a : Args)
    (adv : PublishCall → Except PyErr Unit)
    (running : List (GName × Int)) (idle : List (GName × Int))
    (c : PublishCall) :
    Event.advertize c ∈ (advertiseLoop a adv running idle).1 →
    (c.glidein_name, c.monitors.idle) ∈ idle ∧
    dlookup running c.glidein_name = some c.monitors.running ∧
    c.min_idle = glidein_min_idle_of c.monitors.idle a.reserve_idle a.max_idle ∧
    c.request_name = c.glidein_name := by
  induction idle with
  | nil => intro hc; simp [advertiseLoop] at hc
  | cons hd rest ih =>
    obtain ⟨glidename, idle_jobs⟩ := hd
    intro hc
    cases hlk : dlookup running glidename with
    | none => simp [advertiseLoop, hlk] at hc
    | some running_jobs =>
      cases hadv : adv
          { factory_pool := a.factory_pool
            frontend_name := a.frontend_name
            request_name := glidename
            glidein_name := glidename
            min_idle := glidein_min_idle_of idle_jobs a.reserve_idle a.max_idle
            glidein_params := a.glidein_params
            monitors := { idle := idle_jobs, running := running_jobs } } with
      | ok u =>
        simp [advertiseLoop, hlk, hadv] at hc
        rcases hc with h | h
        · rw [h]
          exact ⟨List.mem_cons_self _ _, hlk, rfl, rfl⟩
        · obtain ⟨h1, h2, h3, h4⟩ := ih h
          exact ⟨List.mem_cons_of_mem _ h1, h2, h3, h4⟩
      | error er =>
        simp [advertiseLoop, hlk, hadv] at hc
        rcases hc with h | h
        · rw [h]
          exact ⟨List.mem_cons_self _ _, hlk, rfl, rfl⟩
        · obtain ⟨h1, h2, h3, h4⟩ := ih h
          exact ⟨List.mem_cons_of_mem _ h1, h2, h3, h4⟩

theorem mem_publishedNames (evs : List Event) (n : GName) :
    n ∈ publishedNames evs ↔
    ∃ c, Event.advertize c ∈ evs ∧ c.glidein_name = n := by
  constructor
  · intro h
    rw [publishedNames, List.mem_filterMap] at h
    obtain ⟨ev, hev, hsome⟩ := h
    cases ev with
    | advertize c => exact ⟨c, hev, by simpa using hsome⟩
    | activity m => simp at hsome
    | warning m => simp at hsome
    | deadvertizeAll p f => simp at hsome
  · rintro ⟨c, hc, rfl⟩
    rw [publishedNames, List.mem_filterMap]
    exact ⟨Event.advertize c, hc, rfl⟩

theorem publishedNames_append (l1 l2 : List Event) :
    publishedNames (l1 ++ l2) = publishedNames l1 ++ publishedNames l2 :=
  List.filterMap_append l1 l2 _

/-- When the advertise loop runs to completion, it publishes one demand per
idle-map entry, in map order, whatever the publish outcomes were. -/
theorem advertiseLoop_ok_publishedNames (a : Args)
    (adv : PublishCall → Except PyErr Unit)
    (running : List (GName × Int)) (idle : List (GName × Int)) :
    (advertiseLoop a adv running idle).2 = Except.ok () →
    publishedNames (advertiseLoop a adv running idle).1 = dkeys idle := by
  induction idle with
  | nil => intro _; simp [advertiseLoop, publishedNames, dkeys]
  | cons hd rest ih =>
    obtain ⟨glidename, idle_jobs⟩ := hd
    intro hok
    cases hlk : dlookup running glidename with
    | none => simp [advertiseLoop, hlk] at hok
    | some running_jobs =>
      cases hadv : adv
          { factory_pool := a.factory_pool
            frontend_name := a.frontend_name
            request_name := glidename
            glidein_name := glidename
            min_idle := glidein_min_idle_of idle_jobs a.reserve_idle a.max_idle
            glidein_params := a.glidein_params
            monitors := { idle := idle_jobs, running := running_jobs } } with
      | ok u =>
        have hok2 : (advertiseLoop a adv running rest).2 = Except.ok () := by
          simpa [advertiseLoop, hlk, hadv] using hok
        simp [advertiseLoop, hlk, hadv, publishedNames_append, dkeys,
          publishedNames]
        simpa [dkeys] using ih hok2
      | error er =>
        have hok2 : (advertiseLoop a adv running rest).2 = Except.ok () := by
          simpa [advertiseLoop, hlk, hadv] using hok
        simp [advertiseLoop, hlk, hadv, publishedNames_append, dkeys,
          publishedNames]
        simpa [dkeys] using ih hok2

/-- When every idle-map key is present in the running map, the loop cannot
raise: the pass part completes with `ok`. -/
theorem advertiseLoop_keys_ok (a : Args)
    (adv : PublishCall → Except PyErr Unit)
    (running : List (GName × Int)) (idle : List (GName × Int)) :
    (∀ k, k ∈ dkeys idle → (dlookup running k).isSome = true) →
    (advertiseLoop a adv running idle).2 = Except.ok () := by
  induction idle with
  | nil => intro _; simp [advertiseLoop]
  | cons hd rest ih =>
    obtain ⟨glidename, idle_jobs⟩ := hd
    intro hk
    have h1 : (dlookup running glidename).isSome = true :=
      hk glidename (by simp [dkeys])
    cases hlk : dlookup running glidename with
    | none => rw [hlk] at h1; simp at h1
    | some running_jobs =>
      have h2 := ih fun k hmem => hk k (by simp [dkeys] at hmem ⊢; exact Or.inr hmem)
      cases hadv : adv
          { factory_pool := a.factory_pool
            frontend_name := a.frontend_name
            request_name := glidename
            glidein_name := glidename
            min_idle := glidein_min_idle_of idle_jobs a.reserve_idle a.max_idle
            glidein_params := a.glidein_params
            monitors := { idle := idle_jobs, running := running_jobs } } with
      | ok u => simpa [advertiseLoop, hlk, hadv] using h2
      | error er => simpa [advertiseLoop, hlk, hadv] using h2

/-- A failed publish leaves its warning line in the trace. -/
theorem advertiseLoop_warning_of_failed (a : Args)
    (adv : PublishCall → Except PyErr Unit)
    (running : List (GName × Int)) (idle : List (GName × Int))
    (c : PublishCall) (er : PyErr) :
    Event.advertize c ∈ (advertiseLoop a adv running idle).1 →
    adv c = Except.error er →
    Event.warning ("Advertize " ++ c.request_name ++ " " ++
        toString c.min_idle ++ " failed")
      ∈ (advertiseLoop a adv running idle).1 := by
  induction idle with
  | nil => intro hc _; simp [advertiseLoop] at hc
  | cons hd rest ih =>
    obtain ⟨glidename, idle_jobs⟩ := hd
    intro hc herr
    cases hlk : dlookup running glidename with
    | none => simp [advertiseLoop, hlk] at hc
    | some running_jobs =>
      cases hadv : adv
          { factory_pool := a.factory_pool
            frontend_name := a.frontend_name
            request_name := glidename
            glidein_name := glidename
            min_idle := glidein_min_idle_of idle_jobs a.reserve_idle a.max_idle
            glidein_params := a.glidein_params
            monitors := { idle := idle_jobs, running := running_jobs } } with
      | ok u =>
        simp only [advertiseLoop, hlk, hadv] at hc ⊢
        simp at hc
        rcases hc with h | h
        · rw [h] at herr; rw [herr] at hadv; exact absurd hadv (by simp)
        · have hw := ih h herr
          simp [hw]
      | error er2 =>
        simp only [advertiseLoop, hlk, hadv] at hc ⊢
        simp at hc
        rcases hc with h | h
        · subst h; simp
        · have hw := ih h herr
          simp [hw]

theorem advertiseLoop_no_deadv (a : Args)
    (adv : PublishCall → Except PyErr Unit)
    (running : List (GName × Int)) (idle : List (GName × Int))
    (p f : String) :
    Event.deadvertizeAll p f ∉ (advertiseLoop a adv running idle).1 := by
  induction idle with
  | nil => simp [advertiseLoop]
  | cons hd rest ih =>
    obtain ⟨glidename, idle_jobs⟩ := hd
    cases hlk : dlookup running glidename with
    | none => simp [advertiseLoop, hlk]
    | some running_jobs =>
      cases hadv : adv
          { factory_pool := a.factory_pool
            frontend_name := a.frontend_name
            request_name := glidename
            glidein_name := glidename
            min_idle := glidein_min_idle_of idle_jobs a.reserve_idle a.max_idle
            glidein_params := a.glidein_params
            monitors := { idle := idle_jobs, running := running_jobs } } with
      | ok u => simp [advertiseLoop, hlk, hadv, ih]
      | error er => simp [advertiseLoop, hlk, hadv, ih]

theorem iterate_one_no_deadv (e : Ext) (a : Args) (p f : String) :
    Event.deadvertizeAll p f ∉ (iterate_one e a).1 := by
  cases hgd : e.findGlideins a.factory_pool with
  | error er => simp [iterate_one, hgd]
  | ok gd =>
    cases hqi : e.getIdleCondorQ a.schedd_names a.job_constraint with
    | error er => simp [iterate_one, hgd, hqi]
    | ok cqi =>
      cases hqr : e.getRunningCondorQ a.schedd_names a.job_constraint with
      | error er => simp [iterate_one, hgd, hqi, hqr]
      | ok cqr =>
        cases hmi : e.countMatch a.match_str cqi gd with
        | error er => simp [iterate_one, hgd, hqi, hqr, hmi]
        | ok idleL =>
          cases hmr : e.countMatch a.match_str cqr gd with
          | error er => simp [iterate_one, hgd, hqi, hqr, hmi, hmr]
          | ok runL =>
            simp [iterate_one, hgd, hqi, hqr, hmi, hmr, advertiseLoop_no_deadv]

/-- Inversion for a publish call of one pass: every collaborator call
before the loop must have succeeded and the call belongs to the advertise
loop over the two match maps of the pass. -/
theorem iterate_one_advertize_inv (e : Ext) (a : Args) (c : PublishCall)
    (hc : Event.advertize c ∈ (iterate_one e a).1) :
    ∃ gd cqi cqr idleL runL,
      e.findGlideins a.factory_pool = Except.ok gd ∧
      e.getIdleCondorQ a.schedd_names a.job_constraint = Except.ok cqi ∧
      e.getRunningCondorQ a.schedd_names a.job_constraint = Except.ok cqr ∧
      e.countMatch a.match_str cqi gd = Except.ok idleL ∧
      e.countMatch a.match_str cqr gd = Except.ok runL ∧
      Event.advertize c ∈ (advertiseLoop a e.advertizeWork runL idleL).1 := by
  cases hgd : e.findGlideins a.factory_pool with
  | error er => simp [iterate_one, hgd] at hc
  | ok gd =>
    cases hqi : e.getIdleCondorQ a.schedd_names a.job_constraint with
    | error er => simp [iterate_one, hgd, hqi] at hc
    | ok cqi =>
      cases hqr : e.getRunningCondorQ a.schedd_names a.job_constraint with
      | error er => simp [iterate_one, hgd, hqi, hqr] at hc
      | ok cqr =>
        cases hmi : e.countMatch a.match_str cqi gd with
        | error er => simp [iterate_one, hgd, hqi, hqr, hmi] at hc
        | ok idleL =>
          cases hmr : e.countMatch a.match_str cqr gd with
          | error er => simp [iterate_one, hgd, hqi, hqr, hmi, hmr] at hc
          | ok runL =>
            simp only [iterate_one, hgd, hqi, hqr, hmi, hmr] at hc
            simp at hc
            exact ⟨gd, cqi, cqr, idleL, runL, rfl, rfl, rfl, hmi, hmr, hc⟩

theorem iterationStarts_append (l1 l2 : List Event) :
    iterationStarts (l1 ++ l2) = iterationStarts l1 + iterationStarts l2 := by
  induction l1 with
  | nil => simp [iterationStarts]
  | cons ev rest ih =>
    cases ev <;> simp [iterationStarts, ih] <;> omega

theorem deadvCalls_append (pool fe : String) (l1 l2 : List Event) :
    deadvCalls pool fe (l1 ++ l2) =
    deadvCalls pool fe l1 + deadvCalls pool fe l2 := by
  induction l1 with
  | nil => simp [deadvCalls]
  | cons ev rest ih =>
    cases ev <;> simp [deadvCalls, ih] <;> omega

theorem deadvCalls_eq_zero (pool fe : String) (evs : List Event)
    (h : Event.deadvertizeAll pool fe ∉ evs) : deadvCalls pool fe evs = 0 := by
  induction evs with
  | nil => rfl
  | cons ev rest ih =>
    have hrest : Event.deadvertizeAll pool fe ∉ rest := fun hm =>
      h (List.mem_cons_of_mem _ hm)
    cases ev with
    | deadvertizeAll p f =>
      have hne : ¬(p = pool ∧ f = fe) := by
        rintro ⟨rfl, rfl⟩
        exact h (List.mem_cons_self _ _)
      simp [deadvCalls, hne, ih hrest]
    | activity m => simp [deadvCalls, ih hrest]
    | warning m => simp [deadvCalls, ih hrest]
    | advertize c => simp [deadvCalls, ih hrest]

theorem teardownEvents_deadvCalls (w : World) (a : Args) :
    deadvCalls a.factory_pool a.frontend_name (teardownEvents w a) = 1 := by
  cases h : w.deadvertizeAllWork a.factory_pool a.frontend_name with
  | ok u => simp [teardownEvents, deadvCalls, h]
  | error er => simp [teardownEvents, deadvCalls, h]

theorem teardownEvents_mem_deadv (w : World) (a : Args) :
    Event.deadvertizeAll a.factory_pool a.frontend_name ∈ teardownEvents w a := by
  cases h : w.deadvertizeAllWork a.factory_pool a.frontend_name with
  | ok u => simp [teardownEvents, h]
  | error er => simp [teardownEvents, h]

theorem teardownEvents_no_advertize (w : World) (a : Args) (c : PublishCall) :
    Event.advertize c ∉ teardownEvents w a := by
  cases h : w.deadvertizeAllWork a.factory_pool a.frontend_name with
  | ok u => simp [teardownEvents, h]
  | error er => simp [teardownEvents, h]

theorem teardownEvents_warning_of_failed (w : World) (a : Args) (er : PyErr)
    (h : w.deadvertizeAllWork a.factory_pool a.frontend_name = Except.error er) :
    Event.warning "Failed to deadvertize my ads" ∈ teardownEvents w a := by
  simp [teardownEvents, h]

/-- Unrolling the loop: a first pass failing with anything but
`KeyboardInterrupt` is fatal and ends the loop at once. -/
theorem runLoop_first_fatal (passes : Nat → Ext) (a : Args) (f n : Nat)
    (e : PyErr) (hp : (iterate_one (passes n) a).2 = Except.error e)
    (hki : e ≠ PyErr.keyboardInterrupt) :
    runLoop passes a (f + 1) n true =
      (Event.activity "Iteration" :: (iterate_one (passes n) a).1,
       LoopExit.fatal e) := by
  cases e with
  | keyboardInterrupt => exact absurd rfl hki
  | keyError k => simp [runLoop, hp]
  | runtimeError m => simp [runLoop, hp]
  | failure m => simp [runLoop, hp]

/-- Unrolling the loop: a pass raising `KeyboardInterrupt` exits as the
graceful interrupted path. -/
theorem runLoop_interrupted (passes : Nat → Ext) (a : Args) (f n : Nat)
    (first : Bool)
    (hp : (iterate_one (passes n) a).2 = Except.error PyErr.keyboardInterrupt) :
    runLoop passes a (f + 1) n first =
      (Event.activity "Iteration" :: (iterate_one (passes n) a).1,
       LoopExit.interrupted) := by
  simp [runLoop, hp]

/-- Unrolling the loop: a successful pass sleeps and continues. -/
theorem runLoop_step_ok (passes : Nat → Ext) (a : Args) (f n : Nat)
    (first : Bool) (hp : (iterate_one (passes n) a).2 = Except.ok ()) :
    runLoop passes a (f + 1) n first =
      (Event.activity "Iteration" :: (iterate_one (passes n) a).1 ++
         [Event.activity "Sleep"] ++ (runLoop passes a f (n + 1) false).1,
       (runLoop passes a f (n + 1) false).2) := by
  simp [runLoop, hp]

/-- Unrolling the loop: after the first pass, an error is only warned
about and the loop continues. -/
theorem runLoop_step_warn (passes : Nat → Ext) (a : Args) (f n : Nat)
    (e : PyErr) (hp : (iterate_one (passes n) a).2 = Except.error e)
    (hki : e ≠ PyErr.keyboardInterrupt) :
    runLoop passes a (f + 1) n false =
      (Event.activity "Iteration" :: (iterate_one (passes n) a).1 ++
         [Event.warning ("Exception: " ++ errMsg e), Event.activity "Sleep"] ++
         (runLoop passes a f (n + 1) false).1,
       (runLoop passes a f (n + 1) false).2) := by
  cases e with
  | keyboardInterrupt => exact absurd rfl hki
  | keyError k => simp [runLoop, hp]
  | runtimeError m => simp [runLoop, hp]
  | failure m => simp [runLoop, hp]

/-- Every started pass logs the `Iteration` line, so a loop run with fuel
left starts at least one pass. -/
theorem runLoop_iterationStarts_pos (passes : Nat → Ext) (a : Args)
    (fuel n : Nat) (first : Bool) (hf : 1 ≤ fuel) :
    1 ≤ iterationStarts (runLoop passes a fuel n first).1 := by
  obtain ⟨f, rfl⟩ : ∃ f, fuel = f + 1 := ⟨fuel - 1, by omega⟩
  cases hp : (iterate_one (passes n) a).2 with
  | ok u =>
    obtain rfl : u = () := rfl
    rw [runLoop_step_ok passes a f n first hp]
    simp [iterationStarts, iterationStarts_append]
  | error e =>
    cases e with
    | keyboardInterrupt =>
      rw [runLoop_interrupted passes a f n first hp]
      simp [iterationStarts]
    | keyError k =>
      cases first
      · rw [runLoop_step_warn passes a f n _ hp (by simp)]
        simp [iterationStarts, iterationStarts_append]
      · rw [runLoop_first_fatal passes a f n _ hp (by simp)]
        simp [iterationStarts]
    | runtimeError m =>
      cases first
      · rw [runLoop_step_warn passes a f n _ hp (by simp)]
        simp [iterationStarts, iterationStarts_append]
      · rw [runLoop_first_fatal passes a f n _ hp (by simp)]
        simp [iterationStarts]
    | failure m =>
      cases first
      · rw [runLoop_step_warn passes a f n _ hp (by simp)]
        simp [iterationStarts, iterationStarts_append]
      · rw [runLoop_first_fatal passes a f n _ hp (by simp)]
        simp [iterationStarts]

theorem runLoop_no_deadv (passes : Nat → Ext) (a : Args) (p f : String)
    (fuel : Nat) : ∀ (n : Nat) (first : Bool),
    Event.deadvertizeAll p f ∉ (runLoop passes a fuel n first).1 := by
  induction fuel with
  | zero => intro n first; simp [runLoop]
  | succ fu ih =>
    intro n first
    have hI := iterate_one_no_deadv (passes n) a p f
    cases hp : (iterate_one (passes n) a).2 with
    | ok u =>
      obtain rfl : u = () := rfl
      rw [runLoop_step_ok passes a fu n first hp]
      simp [hI, ih (n + 1) false]
    | error e =>
      cases e with
      | keyboardInterrupt =>
        rw [runLoop_interrupted passes a fu n first hp]
        simp [hI]
      | keyError k =>
        cases first
        · rw [runLoop_step_warn passes a fu n _ hp (by simp)]
          simp [hI, ih (n + 1) false]
        · rw [runLoop_first_fatal passes a fu n _ hp (by simp)]
          simp [hI]
      | runtimeError m =>
        cases first
        · rw [runLoop_step_warn passes a fu n _ hp (by simp)]
          simp [hI, ih (n + 1) false]
        · rw [runLoop_first_fatal passes a fu n _ hp (by simp)]
          simp [hI]
      | failure m =>
        cases first
        · rw [runLoop_step_warn passes a fu n _ hp (by simp)]
          simp [hI, ih (n + 1) false]
        · rw [runLoop_first_fatal passes a fu n _ hp (by simp)]
          simp [hI]

/-- Every publish call of the whole loop run comes from some pass. -/
theorem runLoop_advertize_inv (passes : Nat → Ext) (a : Args) (fuel : Nat) :
    ∀ (n : Nat) (first : Bool) (c : PublishCall),
    Event.advertize c ∈ (runLoop passes a fuel n first).1 →
    ∃ m, Event.advertize c ∈ (iterate_one (passes m) a).1 := by
  induction fuel with
  | zero => intro n first c hc; simp [runLoop] at hc
  | succ fu ih =>
    intro n first c hc
    cases hp : (iterate_one (passes n) a).2 with
    | ok u =>
      obtain rfl : u = () := rfl
      rw [runLoop_step_ok passes a fu n first hp] at hc
      simp at hc
      rcases hc with h | h
      · exact ⟨n, h⟩
      · exact ih (n + 1) false c h
    | error e =>
      cases e with
      | keyboardInterrupt =>
        rw [runLoop_interrupted passes a fu n first hp] at hc
        simp at hc
        exact ⟨n, hc⟩
      | keyError k =>
        cases first
        · rw [runLoop_step_warn passes a fu n _ hp (by simp)] at hc
          simp at hc
          rcases hc with h | h
          · exact ⟨n, h⟩
          · exact ih (n + 1) false c h
        · rw [runLoop_first_fatal passes a fu n _ hp (by simp)] at hc
          simp at hc
          exact ⟨n, hc⟩
      | runtimeError m =>
        cases first
        · rw [runLoop_step_warn passes a fu n _ hp (by simp)] at hc
          simp at hc
          rcases hc with h | h
          · exact ⟨n, h⟩
          · exact ih (n + 1) false c h
        · rw [runLoop_first_fatal passes a fu n _ hp (by simp)] at hc
          simp at hc
          exact ⟨n, hc⟩
      | failure m =>
        cases first
        · rw [runLoop_step_warn passes a fu n _ hp (by simp)] at hc
          simp at hc
          rcases hc with h | h
          · exact ⟨n, h⟩
          · exact ih (n + 1) false c h
        · rw [runLoop_first_fatal passes a fu n _ hp (by simp)] at hc
          simp at hc
          exact ⟨n, hc⟩

theorem iterate_proj_locked (w : World) (a : Args) (pid : Nat) (st : String)
    (fuel : Nat) (fs : FS) (h1 : fs.lockedByOther = true) :
    (iterate w a pid st fuel fs).2 =
      ([], IterateResult.error
        (PyErr.runtimeError "Another frontend already running")) := by
  have h1' : (if fs.lockFileExists then fs
      else { fs with lockFileExists := true, lockContent := "" }).lockedByOther
      = true := by
    split <;> simpa using h1
  simp [iterate, h1']

theorem iterate_proj_fuelOut (w : World) (a : Args) (pid : Nat) (st : String)
    (fuel : Nat) (fs : FS) (h1 : fs.lockedByOther = false)
    (h2 : (runLoop w.passes a fuel 0 true).2 = LoopExit.fuelOut) :
    (iterate w a pid st fuel fs).2.1 =
      Event.activity "Starting up" :: (runLoop w.passes a fuel 0 true).1 ∧
    (iterate w a pid st fuel fs).2.2 = IterateResult.fuelOut := by
  have h1' : (if fs.lockFileExists then fs
      else { fs with lockFileExists := true, lockContent := "" }).lockedByOther
      = false := by
    split <;> simpa using h1
  constructor <;> simp [iterate, h1', h2]

theorem iterate_proj_interrupted (w : World) (a : Args) (pid : Nat)
    (st : String) (fuel : Nat) (fs : FS) (h1 : fs.lockedByOther = false)
    (h2 : (runLoop w.passes a fuel 0 true).2 = LoopExit.interrupted) :
    (iterate w a pid st fuel fs).2.1 =
      Event.activity "Starting up" :: (runLoop w.passes a fuel 0 true).1 ++
        [Event.activity "Received signal...exit"] ++ teardownEvents w a ∧
    (iterate w a pid st fuel fs).2.2 = IterateResult.ok := by
  have h1' : (if fs.lockFileExists then fs
      else { fs with lockFileExists := true, lockContent := "" }).lockedByOther
      = false := by
    split <;> simpa using h1
  constructor <;> simp [iterate, h1', h2]

theorem iterate_proj_fatal (w : World) (a : Args) (pid : Nat) (st : String)
    (fuel : Nat) (fs : FS) (e : PyErr) (h1 : fs.lockedByOther = false)
    (h2 : (runLoop w.passes a fuel 0 true).2 = LoopExit.fatal e) :
    (iterate w a pid st fuel fs).2.1 =
      Event.activity "Starting up" :: (runLoop w.passes a fuel 0 true).1 ++
        [Event.warning ("Exception: " ++ errMsg e)] ++ teardownEvents w a ∧
    (iterate w a pid st fuel fs).2.2 = IterateResult.error e := by
  have h1' : (if fs.lockFileExists then fs
      else { fs with lockFileExists := true, lockContent := "" }).lockedByOther
      = false := by
    split <;> simpa using h1
  constructor <;> simp [iterate, h1', h2]

/-- Every publish call of a whole `iterate` run comes from the loop. -/
theorem iterate_advertize_loop_inv (w : World) (a : Args) (pid : Nat)
    (st : String) (fuel : Nat) (fs : FS) (c : PublishCall)
    (hc : Event.advertize c ∈ (iterate w a pid st fuel fs).2.1) :
    Event.advertize c ∈ (runLoop w.passes a fuel 0 true).1 := by
  cases h1 : fs.lockedByOther with
  | true =>
    have h := iterate_proj_locked w a pid st fuel fs h1
    rw [show (iterate w a pid st fuel fs).2.1 =
      ((iterate w a pid st fuel fs).2).1 from rfl, h] at hc
    simp at hc
  | false =>
    cases h2 : (runLoop w.passes a fuel 0 true).2 with
    | fuelOut =>
      rw [(iterate_proj_fuelOut w a pid st fuel fs h1 h2).1] at hc
      simpa using hc
    | interrupted =>
      rw [(iterate_proj_interrupted w a pid st fuel fs h1 h2).1] at hc
      have hT := teardownEvents_no_advertize w a c
      simp [hT] at hc
      exact hc
    | fatal e =>
      rw [(iterate_proj_fatal w a pid st fuel fs e h1 h2).1] at hc
      have hT := teardownEvents_no_advertize w a c
      simp [hT] at hc
      exact hc

/-- Every demand published anywhere in an `iterate` run is sized by the
arithmetic of lines 47-53 applied to its own idle monitor. -/
theorem iterate_advertize_min_idle (w : World) (a : Args) (pid : Nat)
    (st : String) (fuel : Nat) (fs : FS) (c : PublishCall)
    (hc : Event.advertize c ∈ (iterate w a pid st fuel fs).2.1) :
    c.min_idle = glidein_min_idle_of c.monitors.idle a.reserve_idle a.max_idle := by
  have h1 := iterate_advertize_loop_inv w a pid st fuel fs c hc
  obtain ⟨m, hm⟩ := runLoop_advertize_inv w.passes a fuel 0 true c h1
  obtain ⟨gd, cqi, cqr, idleL, runL, _, _, _, _, _, hmem⟩ :=
    iterate_one_advertize_inv (w.passes m) a c hm
  obtain ⟨_, _, hsz, _⟩ :=
    advertiseLoop_advertize_spec a (w.passes m).advertizeWork runL idleL c hmem
  exact hsz

theorem deadvCalls_cons_activity (pool fe m : String) (l : List Event) :
    deadvCalls pool fe (Event.activity m :: l) = deadvCalls pool fe l := rfl

theorem deadvCalls_singleton_activity (pool fe m : String) :
    deadvCalls pool fe [Event.activity m] = 0 := rfl

theorem deadvCalls_singleton_warning (pool fe m : String) :
    deadvCalls pool fe [Event.warning m] = 0 := rfl

/-! ## Claim theorems -/

/-- C1: for every glidein demand published by one iteration pass, a
positive idle match count yields `min_idle = min(idle_jobs + reserve_idle,
max_idle)` and a zero idle match count yields `min_idle = 0`. -/
theorem min_idle_formula_published (e : Ext) (a : Args) (c : PublishCall)
    (hc : Event.advertize c ∈ (iterate_one e a).1) :
    (0 < c.monitors.idle →
      c.min_idle = min (c.monitors.idle + a.reserve_idle) a.max_idle) ∧
    (c.monitors.idle = 0 → c.min_idle = 0) := by
  obtain ⟨gd, cqi, cqr, idleL, runL, _, _, _, _, _, hmem⟩ :=
    iterate_one_advertize_inv e a c hc
  obtain ⟨_, _, hsz, _⟩ :=
    advertiseLoop_advertize_spec a e.advertizeWork runL idleL c hmem
  constructor
  · intro hpos
    rw [hsz, glidein_min_idle_of_eq_min _ _ _ hpos]
  · intro hz
    rw [hsz, hz, glidein_min_idle_of_of_zero]

/-- Witness for C1: glidein `g` with 3 idle matches is published with
`min_idle = min(3 + 5, 100) = 8`. -/
theorem min_idle_formula_published_witness :
    Event.advertize callC1 ∈ (iterate_one extC1 argsA).1 ∧
    ((0 < callC1.monitors.idle →
      callC1.min_idle =
        min (callC1.monitors.idle + argsA.reserve_idle) argsA.max_idle) ∧
     (callC1.monitors.idle = 0 → callC1.min_idle = 0)) :=
  ⟨by decide, min_idle_formula_published extC1 argsA callC1 (by decide)⟩

/-- C2 (amended): the running count used in a published monitor is the
value of the key in the running match map of the pass — it exists there;
but a key of the idle match map that is absent from the running match map
makes the lookup raise `KeyError`, ending the loop at once, so the pass
does fail on such a key. -/
theorem running_monitor_lookup_amended :
    (∀ (e : Ext) (a : Args) (c : PublishCall),
       Event.advertize c ∈ (iterate_one e a).1 →
       ∃ gd cqr runL,
         e.findGlideins a.factory_pool = Except.ok gd ∧
         e.getRunningCondorQ a.schedd_names a.job_constraint = Except.ok cqr ∧
         e.countMatch a.match_str cqr gd = Except.ok runL ∧
         dlookup runL c.glidein_name = some c.monitors.running) ∧
    (∀ (a : Args) (adv : PublishCall → Except PyErr Unit)
       (running rest : List (GName × Int)) (k : GName) (i : Int),
       dlookup running k = none →
       advertiseLoop a adv running ((k, i) :: rest) =
         ([], Except.error (PyErr.keyError k))) := by
  constructor
  · intro e a c hc
    obtain ⟨gd, cqi, cqr, idleL, runL, hgd, hqi, hqr, hmi, hmr, hmem⟩ :=
      iterate_one_advertize_inv e a c hc
    obtain ⟨_, hlook, _, _⟩ :=
      advertiseLoop_advertize_spec a e.advertizeWork runL idleL c hmem
    exact ⟨gd, cqr, runL, hgd, hqr, hmr, hlook⟩
  · intro a adv running rest k i h
    simp [advertiseLoop, h]

/-- Witness for the amended C2: the published running monitor 2 of `g` is
looked up in the pass's running match map, and a loop over an idle map
whose head key is missing from the running map raises `KeyError` at once. -/
theorem running_monitor_lookup_amended_witness :
    (∃ gd cqr runL,
       extC1.findGlideins argsA.factory_pool = Except.ok gd ∧
       extC1.getRunningCondorQ argsA.schedd_names argsA.job_constraint =
         Except.ok cqr ∧
       extC1.countMatch argsA.match_str cqr gd = Except.ok runL ∧
       dlookup runL callC1.glidein_name = some callC1.monitors.running) ∧
    advertiseLoop argsA extOkEmpty.advertizeWork [] [("A", 1)] =
      ([], Except.error (PyErr.keyError "A")) :=
  ⟨running_monitor_lookup_amended.1 extC1 argsA callC1 (by decide),
   running_monitor_lookup_amended.2 argsA extOkEmpty.advertizeWork [] [] "A" 1
     (by decide)⟩

/-- Counterexample to C2 as stated: key `A` is in the idle match map and
absent from the running match map, and the pass raises `KeyError "A"`
instead of publishing with running count 0 — the pass does fail on the
absent key. -/
theorem running_monitor_lookup_counter :
    extC2.countMatch "m" 0 ["A"] = Except.ok [("A", 1)] ∧
    extC2.countMatch "m" 1 ["A"] = Except.ok [] ∧
    iterate_one extC2 argsA =
      ([Event.activity "Match"], Except.error (PyErr.keyError "A")) := by
  decide

/-- C3: a second acquisition attempt on a lock path exclusively held by a
live first process raises the already-running error with an empty event
trace (no logging side effect) and the filesystem — in particular the
first holder's lock-file content — unchanged. -/
theorem lock_contention_fails_silently (w : World) (a : Args) (pid : Nat)
    (st : String) (fuel : Nat) (fs : FS)
    (h1 : fs.lockedByOther = true) (h2 : fs.lockFileExists = true) :
    iterate w a pid st fuel fs =
      (fs, [], IterateResult.error
        (PyErr.runtimeError "Another frontend already running")) := by
  simp [iterate, h1, h2]

/-- Witness for C3 at a concrete held lock. -/
theorem lock_contention_fails_silently_witness :
    iterate worldIdle argsA 42 "t1" 5 fsLocked =
      (fsLocked, [], IterateResult.error
        (PyErr.runtimeError "Another frontend already running")) :=
  lock_contention_fails_silently worldIdle argsA 42 "t1" 5 fsLocked rfl rfl

/-- C4 (amended): a failing publish call is always caught and logged as a
warning — the publish failure itself never aborts the pass; and when every
key of the idle match map resolves in the running match map, every entry
still receives its publish call (the published names are exactly the idle
keys) and the loop completes without raising. A later idle key absent from
the running match map independently aborts the pass before that entry. -/
theorem publish_failure_isolated :
    (∀ (a : Args) (adv : PublishCall → Except PyErr Unit)
       (running idle : List (GName × Int)) (c : PublishCall) (er : PyErr),
       Event.advertize c ∈ (advertiseLoop a adv running idle).1 →
       adv c = Except.error er →
       Event.warning ("Advertize " ++ c.request_name ++ " " ++
           toString c.min_idle ++ " failed")
         ∈ (advertiseLoop a adv running idle).1) ∧
    (∀ (a : Args) (adv : PublishCall → Except PyErr Unit)
       (running idle : List (GName × Int)),
       (∀ k, k ∈ dkeys idle → (dlookup running k).isSome = true) →
       (advertiseLoop a adv running idle).2 = Except.ok () ∧
       publishedNames (advertiseLoop a adv running idle).1 = dkeys idle) := by
  constructor
  · intro a adv running idle c er hc herr
    exact advertiseLoop_warning_of_failed a adv running idle c er hc herr
  · intro a adv running idle hk
    have hok := advertiseLoop_keys_ok a adv running idle hk
    exact ⟨hok, advertiseLoop_ok_publishedNames a adv running idle hok⟩

/-- Witness for the amended C4: publishing fails for `A`, is warned about,
and with both idle keys resolvable `B` still receives its publish call and
the loop completes. -/
theorem publish_failure_isolated_witness :
    Event.warning ("Advertize " ++ callC4.request_name ++ " " ++
        toString callC4.min_idle ++ " failed")
      ∈ (advertiseLoop argsA advC4 runC4 idleC4).1 ∧
    ((advertiseLoop argsA advC4 runC4 idleC4).2 = Except.ok () ∧
     publishedNames (advertiseLoop argsA advC4 runC4 idleC4).1 = dkeys idleC4) :=
  ⟨publish_failure_isolated.1 argsA advC4 runC4 idleC4 callC4
     (PyErr.failure "publish failed") (by decide) (by decide),
   publish_failure_isolated.2 argsA advC4 runC4 idleC4 (by decide)⟩

/-- Counterexample to C4 as stated: the publish call for `A` raises and is
caught and warned, yet the subsequent entry `B` never receives its publish
call and the pass raises `KeyError "B"` instead of completing — the
running-map lookup of `B` (line 45) aborts the loop first. -/
theorem publish_failure_isolated_counter :
    advC4 callC4 = Except.error (PyErr.failure "publish failed") ∧
    Event.advertize callC4 ∈ (iterate_one extC4x argsA).1 ∧
    Event.warning "Advertize A 6 failed" ∈ (iterate_one extC4x argsA).1 ∧
    publishedNames (iterate_one extC4x argsA).1 = ["A"] ∧
    (iterate_one extC4x argsA).2 = Except.error (PyErr.keyError "B") := by
  decide

/-- C5: an uncaught non-signal error on the first pass is fatal — teardown
runs (the retract-all call appears in the trace) and the error is re-raised
as the run's result; the same kind of error on a pass after the first is
logged as a warning and the loop keeps running, starting at least a third
pass. -/
theorem first_pass_fatal_later_tolerant :
    (∀ (w : World) (a : Args) (pid : Nat) (st : String) (fuel : Nat)
       (fs : FS) (e : PyErr),
       fs.lockedByOther = false → 1 ≤ fuel →
       (iterate_one (w.passes 0) a).2 = Except.error e →
       e ≠ PyErr.keyboardInterrupt →
       (iterate w a pid st fuel fs).2.2 = IterateResult.error e ∧
       Event.deadvertizeAll a.factory_pool a.frontend_name ∈
         (iterate w a pid st fuel fs).2.1) ∧
    (∀ (w : World) (a : Args) (pid : Nat) (st : String) (fuel : Nat)
       (fs : FS) (e : PyErr),
       fs.lockedByOther = false → 3 ≤ fuel →
       (iterate_one (w.passes 0) a).2 = Except.ok () →
       (iterate_one (w.passes 1) a).2 = Except.error e →
       e ≠ PyErr.keyboardInterrupt →
       Event.warning ("Exception: " ++ errMsg e) ∈
         (iterate w a pid st fuel fs).2.1 ∧
       3 ≤ iterationStarts (iterate w a pid st fuel fs).2.1) := by
  constructor
  · intro w a pid st fuel fs e hlock hf hp hki
    obtain ⟨f, rfl⟩ : ∃ f, fuel = f + 1 := ⟨fuel - 1, by omega⟩
    have hlp := runLoop_first_fatal w.passes a f 0 e hp hki
    have hexit : (runLoop w.passes a (f + 1) 0 true).2 = LoopExit.fatal e := by
      rw [hlp]
    obtain ⟨htr, hres⟩ := iterate_proj_fatal w a pid st (f + 1) fs e hlock hexit
    refine ⟨hres, ?_⟩
    rw [htr]
    simp [teardownEvents_mem_deadv]
  · intro w a pid st fuel fs e hlock hf hp0 hp1 hki
    obtain ⟨f, rfl⟩ : ∃ f, fuel = f + 3 := ⟨fuel - 3, by omega⟩
    have h0 := runLoop_step_ok w.passes a (f + 2) 0 true hp0
    have h1 := runLoop_step_warn w.passes a (f + 1) 1 e hp1 hki
    have hpos := runLoop_iterationStarts_pos w.passes a (f + 1) 2 false
      (by omega)
    have hloop1 : (runLoop w.passes a (f + 2 + 1) 0 true).1 =
        Event.activity "Iteration" :: (iterate_one (w.passes 0) a).1 ++
          [Event.activity "Sleep"] ++
          (Event.activity "Iteration" :: (iterate_one (w.passes 1) a).1 ++
            [Event.warning ("Exception: " ++ errMsg e),
             Event.activity "Sleep"] ++
            (runLoop w.passes a (f + 1) 2 false).1) := by
      rw [h0, h1]
    have hshape : ∃ rest, (iterate w a pid st (f + 3) fs).2.1 =
        Event.activity "Starting up" ::
          (runLoop w.passes a (f + 3) 0 true).1 ++ rest := by
      cases h2 : (runLoop w.passes a (f + 3) 0 true).2 with
      | fuelOut =>
        refine ⟨[], ?_⟩
        rw [(iterate_proj_fuelOut w a pid st (f + 3) fs hlock h2).1]
        simp
      | interrupted =>
        exact ⟨[Event.activity "Received signal...exit"] ++ teardownEvents w a,
          by rw [(iterate_proj_interrupted w a pid st (f + 3) fs hlock h2).1]; simp⟩
      | fatal e2 =>
        exact ⟨[Event.warning ("Exception: " ++ errMsg e2)] ++ teardownEvents w a,
          by rw [(iterate_proj_fatal w a pid st (f + 3) fs e2 hlock h2).1]; simp⟩
    obtain ⟨rest, htr⟩ := hshape
    have hfe : f + 3 = f + 2 + 1 := by omega
    rw [htr, hfe, hloop1]
    constructor
    · simp
    · simp [iterationStarts, iterationStarts_append]
      omega

/-- Witness for C5: a run whose first pass fails fatally is torn down and
re-raises, and a run failing only on the second pass warns and reaches a
third pass. -/
theorem first_pass_fatal_later_tolerant_witness :
    ((iterate worldC5a argsA 7 "t1" 1 fsFree).2.2 =
       IterateResult.error (PyErr.failure "boom") ∧
     Event.deadvertizeAll argsA.factory_pool argsA.frontend_name ∈
       (iterate worldC5a argsA 7 "t1" 1 fsFree).2.1) ∧
    (Event.warning ("Exception: " ++ errMsg (PyErr.failure "boom")) ∈
       (iterate worldC5b argsA 7 "t1" 3 fsFree).2.1 ∧
     3 ≤ iterationStarts (iterate worldC5b argsA 7 "t1" 3 fsFree).2.1) :=
  ⟨first_pass_fatal_later_tolerant.1 worldC5a argsA 7 "t1" 1 fsFree
     (PyErr.failure "boom") rfl (by omega) (by decide) (by decide),
   first_pass_fatal_later_tolerant.2 worldC5b argsA 7 "t1" 3 fsFree
     (PyErr.failure "boom") rfl (by omega) (by decide) (by decide) (by decide)⟩

/-- C6: every run past startup that ends within fuel performs the
retract-all call exactly once — on the graceful-signal path and on the
fatal first-pass path alike — and a failing retract-all is logged as a
warning and swallowed: the graceful run still ends `ok` and the fatal run
still re-raises the original error, not the teardown one. -/
theorem deadvertize_once_and_swallowed :
    (∀ (w : World) (a : Args) (pid : Nat) (st : String) (fuel : Nat)
       (fs : FS),
       fs.lockedByOther = false →
       (iterate w a pid st fuel fs).2.2 ≠ IterateResult.fuelOut →
       deadvCalls a.factory_pool a.frontend_name
         (iterate w a pid st fuel fs).2.1 = 1) ∧
    (∀ (w : World) (a : Args) (pid : Nat) (st : String) (fuel : Nat)
       (fs : FS) (er : PyErr),
       fs.lockedByOther = false → 1 ≤ fuel →
       (iterate_one (w.passes 0) a).2 = Except.error PyErr.keyboardInterrupt →
       w.deadvertizeAllWork a.factory_pool a.frontend_name = Except.error er →
       (iterate w a pid st fuel fs).2.2 = IterateResult.ok ∧
       Event.warning "Failed to deadvertize my ads" ∈
         (iterate w a pid st fuel fs).2.1) ∧
    (∀ (w : World) (a : Args) (pid : Nat) (st : String) (fuel : Nat)
       (fs : FS) (e er : PyErr),
       fs.lockedByOther = false → 1 ≤ fuel →
       (iterate_one (w.passes 0) a).2 = Except.error e →
       e ≠ PyErr.keyboardInterrupt →
       w.deadvertizeAllWork a.factory_pool a.frontend_name = Except.error er →
       (iterate w a pid st fuel fs).2.2 = IterateResult.error e) := by
  refine ⟨?_, ?_, ?_⟩
  · intro w a pid st fuel fs hlock hend
    have hz : deadvCalls a.factory_pool a.frontend_name
        (runLoop w.passes a fuel 0 true).1 = 0 :=
      deadvCalls_eq_zero _ _ _ (runLoop_no_deadv w.passes a _ _ fuel 0 true)
    cases h2 : (runLoop w.passes a fuel 0 true).2 with
    | fuelOut =>
      exact absurd (iterate_proj_fuelOut w a pid st fuel fs hlock h2).2 hend
    | interrupted =>
      rw [(iterate_proj_interrupted w a pid st fuel fs hlock h2).1]
      simp only [deadvCalls_cons_activity, deadvCalls_append, hz,
        teardownEvents_deadvCalls, deadvCalls_singleton_activity]
      rfl
    | fatal e =>
      rw [(iterate_proj_fatal w a pid st fuel fs e hlock h2).1]
      simp only [deadvCalls_cons_activity, deadvCalls_append, hz,
        teardownEvents_deadvCalls, deadvCalls_singleton_warning]
  · intro w a pid st fuel fs er hlock hf hp hdead
    obtain ⟨f, rfl⟩ : ∃ f, fuel = f + 1 := ⟨fuel - 1, by omega⟩
    have hlp := runLoop_interrupted w.passes a f 0 true hp
    have hexit : (runLoop w.passes a (f + 1) 0 true).2 =
        LoopExit.interrupted := by rw [hlp]
    obtain ⟨htr, hres⟩ :=
      iterate_proj_interrupted w a pid st (f + 1) fs hlock hexit
    refine ⟨hres, ?_⟩
    rw [htr]
    have hw := teardownEvents_warning_of_failed w a er hdead
    simp [hw]
  · intro w a pid st fuel fs e er hlock hf hp hki hdead
    obtain ⟨f, rfl⟩ : ∃ f, fuel = f + 1 := ⟨fuel - 1, by omega⟩
    have hlp := runLoop_first_fatal w.passes a f 0 e hp hki
    have hexit : (runLoop w.passes a (f + 1) 0 true).2 = LoopExit.fatal e := by
      rw [hlp]
    exact (iterate_proj_fatal w a pid st (f + 1) fs e hlock hexit).2

/-- Witness for C6: the graceful run over `worldC6g` retracts exactly once,
stays `ok` despite the failing retract-all and warns about it; the fatal
run over `worldC6f` still re-raises its first-pass error. -/
theorem deadvertize_once_and_swallowed_witness :
    deadvCalls argsA.factory_pool argsA.frontend_name
      (iterate worldC6g argsA 7 "t1" 1 fsFree).2.1 = 1 ∧
    ((iterate worldC6g argsA 7 "t1" 1 fsFree).2.2 = IterateResult.ok ∧
     Event.warning "Failed to deadvertize my ads" ∈
       (iterate worldC6g argsA 7 "t1" 1 fsFree).2.1) ∧
    (iterate worldC6f argsA 7 "t1" 1 fsFree).2.2 =
      IterateResult.error (PyErr.failure "boom") :=
  ⟨deadvertize_once_and_swallowed.1 worldC6g argsA 7 "t1" 1 fsFree rfl
     (by decide),
   deadvertize_once_and_swallowed.2.1 worldC6g argsA 7 "t1" 1 fsFree
     (PyErr.failure "deadfail") rfl (by omega) (by decide) (by decide),
   deadvertize_once_and_swallowed.2.2 worldC6f argsA 7 "t1" 1 fsFree
     (PyErr.failure "boom") (PyErr.failure "deadfail") rfl (by omega)
     (by decide) (by decide) (by decide)⟩

/-- C7: with nonnegative idle count, reserve margin and ceiling, every
published demand has `0 ≤ min_idle ≤ max_idle`. -/
theorem min_idle_within_bounds (e : Ext) (a : Args) (c : PublishCall)
    (hr : 0 ≤ a.reserve_idle) (hm : 0 ≤ a.max_idle)
    (hi : 0 ≤ c.monitors.idle)
    (hc : Event.advertize c ∈ (iterate_one e a).1) :
    0 ≤ c.min_idle ∧ c.min_idle ≤ a.max_idle := by
  obtain ⟨gd, cqi, cqr, idleL, runL, _, _, _, _, _, hmem⟩ :=
    iterate_one_advertize_inv e a c hc
  obtain ⟨_, _, hsz, _⟩ :=
    advertiseLoop_advertize_spec a e.advertizeWork runL idleL c hmem
  rw [hsz]
  exact glidein_min_idle_of_bounds _ _ _ hr hm

/-- Witness for C7: the concrete published demand has `0 ≤ 8 ≤ 100`. -/
theorem min_idle_within_bounds_witness :
    0 ≤ callC1.min_idle ∧ callC1.min_idle ≤ argsA.max_idle :=
  min_idle_within_bounds extC1 argsA callC1 (by decide) (by decide)
    (by decide) (by decide)

/-- C8 (amended): a glidein name outside the idle match map of a pass never
receives a publish call, even when present in the running match map; and
whenever the advertise loop completes without raising, the published names
are exactly the keys of the idle match map — a raising running-map lookup
ends the pass early, so a failed pass may publish only a proper prefix of
those keys. -/
theorem demand_keys_amended :
    (∀ (e : Ext) (a : Args) (n : GName),
       n ∈ publishedNames (iterate_one e a).1 →
       ∃ gd cqi idleL,
         e.findGlideins a.factory_pool = Except.ok gd ∧
         e.getIdleCondorQ a.schedd_names a.job_constraint = Except.ok cqi ∧
         e.countMatch a.match_str cqi gd = Except.ok idleL ∧
         n ∈ dkeys idleL) ∧
    (∀ (a : Args) (adv : PublishCall → Except PyErr Unit)
       (running idle : List (GName × Int)),
       (advertiseLoop a adv running idle).2 = Except.ok () →
       publishedNames (advertiseLoop a adv running idle).1 = dkeys idle) := by
  constructor
  · intro e a n hn
    obtain ⟨c, hc, rfl⟩ := (mem_publishedNames _ _).1 hn
    obtain ⟨gd, cqi, cqr, idleL, runL, hgd, hqi, hqr, hmi, hmr, hmem⟩ :=
      iterate_one_advertize_inv e a c hc
    obtain ⟨hinl, _, _, _⟩ :=
      advertiseLoop_advertize_spec a e.advertizeWork runL idleL c hmem
    refine ⟨gd, cqi, idleL, hgd, hqi, hmi, ?_⟩
    rw [dkeys]
    exact List.mem_map_of_mem Prod.fst hinl
  · intro a adv running idle h
    exact advertiseLoop_ok_publishedNames a adv running idle h

/-- Witness for the amended C8 at concrete passes. -/
theorem demand_keys_amended_witness :
    (∃ gd cqi idleL,
       extC1.findGlideins argsA.factory_pool = Except.ok gd ∧
       extC1.getIdleCondorQ argsA.schedd_names argsA.job_constraint =
         Except.ok cqi ∧
       extC1.countMatch argsA.match_str cqi gd = Except.ok idleL ∧
       "g" ∈ dkeys idleL) ∧
    publishedNames
        (advertiseLoop argsA extOkEmpty.advertizeWork [("h", 0)] [("h", 2)]).1 =
      dkeys [("h", (2 : Int))] :=
  ⟨demand_keys_amended.1 extC1 argsA "g" (by decide),
   demand_keys_amended.2 argsA extOkEmpty.advertizeWork [("h", 0)] [("h", 2)]
     (by decide)⟩

/-- Counterexample to C8 as stated: `B` is a key of the idle match map, yet
the pass publishes only `A` (the raising lookup of `B` in the running map
ends the pass), so demand entries are not emitted exactly for the idle
keys. -/
theorem demand_keys_counter :
    extC8.countMatch "m" 0 ["A", "B"] = Except.ok [("A", 1), ("B", 2)] ∧
    "B" ∈ dkeys [("A", (1 : Int)), ("B", 2)] ∧
    publishedNames (iterate_one extC8 argsA).1 = ["A"] ∧
    (iterate_one extC8 argsA).2 = Except.error (PyErr.keyError "B") := by
  decide

/-- C9: two runs of `main` that differ only in the `advertize_rate`
argument are identical in every observable — filesystem outcome, event
trace (hence all publish calls and lifecycle logging), and result. -/
theorem advertize_rate_noninterference (w : World) (sleep_time : Nat)
    (r1 r2 : Int) (config : Config) (pid : Nat) (st : String)
    (fuel : Nat) (fs : FS) :
    main w sleep_time r1 config pid st fuel fs =
    main w sleep_time r2 config pid st fuel fs := rfl

/-- C10: `main` always invokes the lifecycle loop with the hard-coded
constants `max_idle = 100` and `reserve_idle = 5`, whatever the
configuration; consequently every demand published by any run of `main` is
sized with reserve 5 and ceiling 100. -/
theorem main_hardcodes_sizing_constants :
    (∀ (w : World) (sleep_time : Nat) (r : Int) (config : Config)
       (pid : Nat) (st : String) (fuel : Nat) (fs : FS),
       main w sleep_time r config pid st fuel fs =
         iterate w
           { frontend_name := config.frontend_name
             factory_pool := config.factory_pool
             schedd_names := config.schedd_names
             job_constraint := config.job_constraint
             match_str := config.match_string
             max_idle := 100
             reserve_idle := 5
             glidein_params := config.glidein_params } pid st fuel fs) ∧
    (∀ (w : World) (sleep_time : Nat) (r : Int) (config : Config)
       (pid : Nat) (st : String) (fuel : Nat) (fs : FS) (c : PublishCall),
       Event.advertize c ∈ (main w sleep_time r config pid st fuel fs).2.1 →
       c.min_idle = glidein_min_idle_of c.monitors.idle 5 100) := by
  refine ⟨fun w s r cfg pid st fuel fs => rfl, ?_⟩
  intro w s r cfg pid st fuel fs c hc
  exact iterate_advertize_min_idle w _ pid st fuel fs c hc

/-- Witness for C10: a full `main` run publishes `g` with
`min_idle = min(3 + 5, 100) = 8`. -/
theorem main_hardcodes_sizing_constants_witness :
    Event.advertize callC10 ∈ (main worldC10 1 42 configW 7 "t1" 1 fsFree).2.1 ∧
    callC10.min_idle = glidein_min_idle_of callC10.monitors.idle 5 100 :=
  ⟨by decide,
   main_hardcodes_sizing_constants.2 worldC10 1 42 configW 7 "t1" 1 fsFree
     callC10 (by decide)⟩

end GlideinFrontend
